import Mathlib

/-!
# Janus gateway client: correlation, dispatch and registries

A shallow embedding of `pkg/janus/janus.go`.  Go maps become lookup functions,
every blocking receive `<-ch` becomes an argument (the message the channel
yields), every `go passMsg(ch, msg)` becomes a recorded `Delivery`, and the
pointers `handle.session` / `session.gateway` become explicit arguments: the
owning `Session` and `Gateway` are passed in and handed back.  A `Session`
carries the address of its object, and a write through a `*Session` shows in
every entry of `Gateway.Sessions` that holds the same address.
-/

namespace Janus

/-! ## Go maps -/

/-- A Go map: the lookup function.  `none` is the missing key, which Go reads
as the zero value (nil pointer, nil channel, `false`). -/
abbrev GoMap (K V : Type) := K → Option V

/-- The result of `make(map[K]V)`. -/
def GoMap.empty {K V : Type} : GoMap K V := fun _ => none

/-- The assignment `m[k] = v`. -/
def GoMap.set {K V : Type} [DecidableEq K] (m : GoMap K V) (k : K) (v : V) : GoMap K V :=
  fun j => if j = k then some v else m j

/-- The statement `delete(m, k)`. -/
def GoMap.delete {K V : Type} [DecidableEq K] (m : GoMap K V) (k : K) : GoMap K V :=
  fun j => if j = k then none else m j

/-! ## Messages -/

/-- Modelled from the spec: the `data` object of a `success` reply, declared in
the package's types file (not among the sources); it carries the id of the
created resource, read by the code as `success.Data.ID`. -/
structure SuccessData where
  ID : Nat
  deriving DecidableEq, Repr

/-- Modelled from the spec: the Success message shape (types file not among
the sources). -/
structure SuccessMsg where
  Data : SuccessData
  deriving DecidableEq, Repr

/-- Modelled from the spec: the Error message shape, carrying code and reason
(types file not among the sources).  A pointer to it is a Go `error`. -/
structure ErrorMsg where
  Code : Int
  Reason : String
  deriving DecidableEq, Repr

/-- Modelled from the spec: the Ack message shape, without payload (types file
not among the sources). -/
structure AckMsg where
  deriving DecidableEq, Repr

/-- Modelled from the spec: the Event message shape, a plugin payload and an
optional SDP offer/answer, both kept as uninterpreted text (types file not
among the sources). -/
structure EventMsg where
  Plugindata : String
  Jsep : Option String
  deriving DecidableEq, Repr

/-- Modelled from the spec: the reply to an `info` request, its content kept
as uninterpreted text (types file not among the sources). -/
structure InfoMsg where
  Raw : String
  deriving DecidableEq, Repr

/-- Modelled from the spec: a decoded message, one alternative per message
shape that the decode table of the types file (not among the sources) can
produce; the dynamic type behind Go's `interface{}`.  The four push-only
notifications keep their content as uninterpreted text. -/
inductive Msg where
  | SuccessMsg (m : SuccessMsg)
  | ErrorMsg (m : ErrorMsg)
  | AckMsg (m : AckMsg)
  | EventMsg (m : EventMsg)
  | InfoMsg (m : InfoMsg)
  | MediaMsg (raw : String)
  | WebRTCUpMsg (raw : String)
  | SlowLinkMsg (raw : String)
  | HangupMsg (raw : String)
  deriving DecidableEq, Repr

/-- The test `case *EventMsg` of a type switch. -/
def Msg.isEvent : Msg → Bool
  | .EventMsg _ => true
  | _ => false

/-- Modelled from the spec: the common envelope fields decoded first from every
inbound frame (types file not among the sources): discriminator, transaction
string (empty when absent), session id and handle id (zero when absent). -/
structure BaseMsg where
  Type_ : String
  ID : String
  Session : Nat
  Handle : Nat
  deriving DecidableEq, Repr

/-- A decoded inbound frame: what `recv` holds at line 226, the envelope
fields and the fully decoded message. -/
structure Frame where
  base : BaseMsg
  msg : Msg
  deriving DecidableEq, Repr

/-! ## Identifiers, channels, errors -/

/-- The type `xid.ID` of the external xid package (twelve bytes), as a
number. -/
abbrev XID := Nat

/-- A reply channel, made by `newRequest`: the pending reply slot of one
request.  Go types it `chan interface{}` like an event channel; the two
populations are kept apart here because a reply channel is known only to the
operation that made it and to the correlation table. -/
structure ReplyChan where
  addr : Nat
  deriving DecidableEq, Repr

/-- An event channel, made by `Create` or `Attch` and stored in an `Events`
field. -/
structure EventChan where
  addr : Nat
  deriving DecidableEq, Repr

/-- A Go `error` as this package returns it: a remote `*ErrorMsg` or the value
of `fmt.Errorf`. -/
inductive Error where
  | remote (m : ErrorMsg)
  | errorf (text : String)
  deriving DecidableEq, Repr

/-- The function `unexpected` (line 20). -/
def unexpected (request : String) : Error :=
  .errorf ("unexpected response received: \x27" ++ request ++ "\x27 request")

/-- A value of type `interface{}` put into a request envelope: Go's nil, a
string, an unsigned number, or any other value, kept as uninterpreted text. -/
inductive Value where
  | nil
  | str (s : String)
  | u64 (n : Nat)
  | obj (json : String)
  deriving DecidableEq, Repr

/-- A request envelope, `map[string]interface{}`. -/
abbrev Envelope := GoMap String Value

/-- The external library calls the client makes: `guid.String()` and
`xid.FromString` (its error discarded, as at lines 228 and 259) of the xid
package, and `json.Marshal` (`none` when it returns an error). -/
structure Extern where
  IDString : XID → String
  FromString : String → XID
  Marshal : Envelope → Option String

/-! ## Gateway, Session, Handle -/

/-- The struct `Handle` (line 369), without its `session` pointer. -/
structure Handle where
  ID : Nat
  Type_ : String
  User : String
  Events : EventChan

/-- The struct `Session` (line 280), without its mutex and `gateway` pointer,
together with the address `addr` of the object: a `*Session` is that address,
and two entries with the same address are the same object. -/
structure Session where
  addr : Nat
  ID : Nat
  Handles : GoMap Nat Handle
  Events : EventChan

/-- The struct `Gateway` (line 62), without its connection, locks and
transport queues. -/
structure Gateway where
  Sessions : GoMap Nat Session
  transactions : GoMap XID ReplyChan
  transactionsUsed : GoMap XID Bool

/-- A write through the pointer `session`, with `session` the object's new
content: every entry of `Sessions` that holds the pointer (an object at the
same address) shows the new content, as the gateway and the caller share the
one object (stored at line 97, read back at lines 241 and 249). -/
def Gateway.writeSession (gateway : Gateway) (session : Session) : Gateway :=
  { gateway with
    Sessions := fun k =>
      match gateway.Sessions k with
      | none => none
      | some held => if held.addr = session.addr then some session else some held }

/-- The read `gateway.transactionsUsed[id]`: `false` for a missing key. -/
def Gateway.used (gateway : Gateway) (id : XID) : Bool :=
  (gateway.transactionsUsed id).getD false

/-- A started `go passMsg(ch, msg)`, by the line that starts it. -/
inductive Delivery where
  -- line 273: into the channel read from the correlation table (`none` is
  -- the nil channel of an unknown id, on which the send never completes)
  | slot (transaction : Option ReplyChan) (msg : Msg)
  -- line 256: into the `Events` channel of a handle
  | events (ch : EventChan) (msg : Msg)
  deriving DecidableEq, Repr

/-- The messages a list of deliveries puts into reply channel `ch`. -/
def slotMsgs (ch : ReplyChan) : List Delivery → List Msg
  | [] => []
  | .slot t m :: ds => if t = some ch then m :: slotMsgs ch ds else slotMsgs ch ds
  | .events _ _ :: ds => slotMsgs ch ds

/-- The messages a list of deliveries puts into event channel `ch`. -/
def eventMsgs (ch : EventChan) : List Delivery → List Msg
  | [] => []
  | .slot _ _ :: ds => eventMsgs ch ds
  | .events c m :: ds => if c = ch then m :: eventMsgs ch ds else eventMsgs ch ds

/-- Lines 236 to 257 of `Gateway.recv`, the branch of a frame routed as a push:
the deliveries started.  Handle id zero starts none (line 236); a missing
session or handle is the `continue` of lines 245 and 253. -/
def Gateway.recvPush (gateway : Gateway) (base : BaseMsg) (msg : Msg) : List Delivery :=
  if base.Handle = 0 then
    []
  else
    match gateway.Sessions base.Session with
    | none => []
    | some session =>
      match session.Handles base.Handle with
      | none => []
      | some handle => [Delivery.events handle.Events msg]

/-- One turn of the loop of `Gateway.recv` from line 226 on, for a frame that
decoded: the gateway afterwards and the deliveries started. -/
def Gateway.recvFrame (x : Extern) (gateway : Gateway) (base : BaseMsg) (msg : Msg) :
    Gateway × List Delivery :=
  let transactionUsed : Bool :=
    if base.ID ≠ "" then gateway.used (x.FromString base.ID) else false
  if base.ID = "" ∨ transactionUsed = true then
    (gateway, gateway.recvPush base msg)
  else
    let id := x.FromString base.ID
    let transaction := gateway.transactions id
    let gateway' : Gateway :=
      match msg with
      | .EventMsg _ => { gateway with transactionsUsed := gateway.transactionsUsed.set id true }
      | _ => gateway
    (gateway', [Delivery.slot transaction msg])

/-- The loop of `Gateway.recv` over the frames that decode, in arrival order:
the final gateway and every delivery started. -/
def Gateway.recv (x : Extern) : Gateway → List Frame → Gateway × List Delivery
  | gateway, [] => (gateway, [])
  | gateway, f :: fs =>
    let r := gateway.recvFrame x f.base f.msg
    let r' := Gateway.recv x r.1 fs
    (r'.1, r.2 ++ r'.2)

/-! ## Sending -/

/-- The envelope of `newRequest` (line 24).  The channel it makes is the
argument `ch` of each operation below. -/
def newRequest (method : String) : Envelope :=
  GoMap.empty.set "janus" (.str method)

/-- What a call of `send` leaves: the gateway afterwards, the envelope as it is
serialised, and the frame handed to `conn.WriteMessage` (`none` when
`json.Marshal` fails and `send` returns at line 158 without writing). -/
structure Sent where
  gateway : Gateway
  msg : Envelope
  wire : Option String

/-- The method `Gateway.send` (line 147); `guid` is the value of
`generateTransactionId()`. -/
def Gateway.send (x : Extern) (gateway : Gateway) (guid : XID) (msg : Envelope)
    (transaction : ReplyChan) : Sent :=
  let msg := msg.set "transaction" (.str (x.IDString guid))
  let gateway : Gateway :=
    { gateway with
      transactions := gateway.transactions.set guid transaction
      transactionsUsed := gateway.transactionsUsed.set guid false }
  ⟨gateway, msg, x.Marshal msg⟩

/-- The method `Session.send` (line 294); `gateway` is `session.gateway`. -/
def Session.send (x : Extern) (gateway : Gateway) (session : Session) (guid : XID)
    (msg : Envelope) (transaction : ReplyChan) : Sent :=
  gateway.send x guid (msg.set "session_id" (.u64 session.ID)) transaction

/-- The method `Handle.send` (line 382); `session` is `handle.session`. -/
def Handle.send (x : Extern) (gateway : Gateway) (session : Session) (handle : Handle)
    (guid : XID) (msg : Envelope) (transaction : ReplyChan) : Sent :=
  session.send x gateway guid (msg.set "handle_id" (.u64 handle.ID)) transaction

/-! ## Operations

Each operation takes the generated id `guid`, the reply channel `ch` made by
`newRequest`, and the message (or messages) that `<-ch` yields. -/

/-- A run-time fault of the Go program. -/
inductive Panic where
  | nilPointerDereference
  deriving DecidableEq, Repr

/-- What an operation leaves when it returns: the objects it writes to, the
frame it wrote, and the returned pair (value, error), `none` being nil. -/
structure Outcome (σ α : Type) where
  state : σ
  wire : Option String
  val : Option α
  err : Option Error

/-- The method `Gateway.Create` (line 78); `addr` is the address of the object
made by `new(Session)` at line 90 and `events` the channel made at line 94.
With `success` nil, line 92 dereferences a nil pointer. -/
def Gateway.Create (x : Extern) (gateway : Gateway) (guid : XID) (ch : ReplyChan)
    (addr : Nat) (events : EventChan) (msg : Msg) : Except Panic (Outcome Gateway Session) :=
  let sent := gateway.send x guid (newRequest "create") ch
  match msg with
  | .ErrorMsg m => .ok ⟨sent.gateway, sent.wire, none, some (.remote m)⟩
  | _ =>
    let success : Option SuccessMsg :=
      match msg with
      | .SuccessMsg m => some m
      | _ => none
    match success with
    | none => .error .nilPointerDereference
    | some success =>
      let session : Session := ⟨addr, success.Data.ID, GoMap.empty, events⟩
      .ok ⟨{ sent.gateway with Sessions := sent.gateway.Sessions.set session.ID session },
        sent.wire, some session, none⟩

/-- The method `Gateway.Info` (line 112). -/
def Gateway.Info (x : Extern) (gateway : Gateway) (guid : XID) (ch : ReplyChan) (msg : Msg) :
    Outcome Gateway InfoMsg :=
  let sent := gateway.send x guid (newRequest "info") ch
  match msg with
  | .InfoMsg m => ⟨sent.gateway, sent.wire, some m, none⟩
  | .ErrorMsg m => ⟨sent.gateway, sent.wire, none, some (.remote m)⟩
  | _ => ⟨sent.gateway, sent.wire, none, some (unexpected "info")⟩

/-- The method `Session.Attch` (line 302); `events` is the channel made at
line 321.  With `success` nil, line 320 dereferences a nil pointer.  The
assignment at line 324 writes through the pointer `session`, so the session
handed back and the gateway's entries for it both show the new handle. -/
def Session.Attch (x : Extern) (gateway : Gateway) (session : Session) (guid : XID)
    (ch : ReplyChan) (events : EventChan) (plugin : String) (msg : Msg) :
    Except Panic (Outcome (Gateway × Session) Handle) :=
  let req := (newRequest "attach").set "plugin" (.str plugin)
  let sent := session.send x gateway guid req ch
  match msg with
  | .ErrorMsg m => .ok ⟨(sent.gateway, session), sent.wire, none, some (.remote m)⟩
  | _ =>
    let success : Option SuccessMsg :=
      match msg with
      | .SuccessMsg m => some m
      | _ => none
    match success with
    | none => .error .nilPointerDereference
    | some success =>
      let handle : Handle := ⟨success.Data.ID, "", "", events⟩
      let session : Session :=
        { session with Handles := session.Handles.set handle.ID handle }
      .ok ⟨(sent.gateway.writeSession session, session), sent.wire, some handle, none⟩

/-- The method `Session.KeepAlive` (line 332). -/
def Session.KeepAlive (x : Extern) (gateway : Gateway) (session : Session) (guid : XID)
    (ch : ReplyChan) (msg : Msg) : Outcome Gateway AckMsg :=
  let sent := session.send x gateway guid (newRequest "keepalive") ch
  match msg with
  | .AckMsg m => ⟨sent.gateway, sent.wire, some m, none⟩
  | .ErrorMsg m => ⟨sent.gateway, sent.wire, none, some (.remote m)⟩
  | _ => ⟨sent.gateway, sent.wire, none, some (unexpected "keepalive")⟩

/-- The method `Session.Destroy` (line 348).  A reply that is neither Ack nor
Error leaves `ack` nil and falls through to the `delete`. -/
def Session.Destroy (x : Extern) (gateway : Gateway) (session : Session) (guid : XID)
    (ch : ReplyChan) (msg : Msg) : Outcome Gateway AckMsg :=
  let sent := session.send x gateway guid (newRequest "destroy") ch
  match msg with
  | .ErrorMsg m => ⟨sent.gateway, sent.wire, none, some (.remote m)⟩
  | _ =>
    let ack : Option AckMsg :=
      match msg with
      | .AckMsg m => some m
      | _ => none
    ⟨{ sent.gateway with Sessions := sent.gateway.Sessions.delete session.ID },
      sent.wire, ack, none⟩

/-- The envelope of `Handle.Request`: the key `body` is set for a non-nil
body only (line 390). -/
def requestEnvelope (body : Value) : Envelope :=
  let req := newRequest "message"
  if body ≠ .nil then req.set "body" body else req

/-- The method `Handle.Request` (line 388). -/
def Handle.Request (x : Extern) (gateway : Gateway) (session : Session) (handle : Handle)
    (guid : XID) (ch : ReplyChan) (body : Value) (msg : Msg) : Outcome Gateway SuccessMsg :=
  let sent := handle.send x gateway session guid (requestEnvelope body) ch
  match msg with
  | .SuccessMsg m => ⟨sent.gateway, sent.wire, some m, none⟩
  | .ErrorMsg m => ⟨sent.gateway, sent.wire, none, some (.remote m)⟩
  | _ => ⟨sent.gateway, sent.wire, none, some (unexpected "message")⟩

/-- The loop at label `GetMessage` (lines 421 to 433) over the messages the
reply channel yields, in order: the returned pair, or `none` when the channel
yields nothing further and the receive at line 422 stays blocked. -/
def Handle.getMessage : List Msg → Option (Option EventMsg × Option Error)
  | [] => none
  | .AckMsg _ :: rest => Handle.getMessage rest
  | .EventMsg m :: _ => some (some m, none)
  | .ErrorMsg m :: _ => some (none, some (.remote m))
  | _ :: _ => some (none, some (unexpected "message"))

/-- The envelope of `Handle.Message` (lines 412 to 418). -/
def messageEnvelope (body jsep : Value) : Envelope :=
  let req := requestEnvelope body
  if jsep ≠ .nil then req.set "jsep" jsep else req

/-- The method `Handle.Message` (line 411); `replies` is what the reply
channel yields, in order.  `none`: the call has not returned. -/
def Handle.Message (x : Extern) (gateway : Gateway) (session : Session) (handle : Handle)
    (guid : XID) (ch : ReplyChan) (body jsep : Value) (replies : List Msg) :
    Option (Outcome Gateway EventMsg) :=
  let sent := handle.send x gateway session guid (messageEnvelope body jsep) ch
  match Handle.getMessage replies with
  | none => none
  | some (val, err) => some ⟨sent.gateway, sent.wire, val, err⟩

/-- The method `Handle.Trickle` (line 444). -/
def Handle.Trickle (x : Extern) (gateway : Gateway) (session : Session) (handle : Handle)
    (guid : XID) (ch : ReplyChan) (candidate : Value) (msg : Msg) : Outcome Gateway AckMsg :=
  let req := (newRequest "trickle").set "candidate" candidate
  let sent := handle.send x gateway session guid req ch
  match msg with
  | .AckMsg m => ⟨sent.gateway, sent.wire, some m, none⟩
  | .ErrorMsg m => ⟨sent.gateway, sent.wire, none, some (.remote m)⟩
  | _ => ⟨sent.gateway, sent.wire, none, some (unexpected "trickle")⟩

/-- The method `Handle.TrickleMany` (line 464). -/
def Handle.TrickleMany (x : Extern) (gateway : Gateway) (session : Session) (handle : Handle)
    (guid : XID) (ch : ReplyChan) (candidates : Value) (msg : Msg) : Outcome Gateway AckMsg :=
  let req := (newRequest "trickle").set "candidates" candidates
  let sent := handle.send x gateway session guid req ch
  match msg with
  | .AckMsg m => ⟨sent.gateway, sent.wire, some m, none⟩
  | .ErrorMsg m => ⟨sent.gateway, sent.wire, none, some (.remote m)⟩
  | _ => ⟨sent.gateway, sent.wire, none, some (unexpected "trickle")⟩

/-- The method `Handle.Detach` (line 482).  A reply that is neither Ack nor
Error leaves `ack` nil and falls through to the `delete`.  The `delete` at line
497 writes through the pointer `handle.session`, so the session handed back and
the gateway's entries for it both lose the handle. -/
def Handle.Detach (x : Extern) (gateway : Gateway) (session : Session) (handle : Handle)
    (guid : XID) (ch : ReplyChan) (msg : Msg) : Outcome (Gateway × Session) AckMsg :=
  let sent := handle.send x gateway session guid (newRequest "detach") ch
  match msg with
  | .ErrorMsg m => ⟨(sent.gateway, session), sent.wire, none, some (.remote m)⟩
  | _ =>
    let ack : Option AckMsg :=
      match msg with
      | .AckMsg m => some m
      | _ => none
    let session : Session :=
      { session with Handles := session.Handles.delete handle.ID }
    ⟨(sent.gateway.writeSession session, session), sent.wire, ack, none⟩

/-! ## Concrete inputs -/

/-- A stand-in for the external library: the id `n` is spelled as `n` letters,
a string reads back as its length, and every envelope serialises. -/
def demoExtern : Extern where
  IDString := fun n => String.mk (List.replicate n 'x')
  FromString := fun s => s.length
  Marshal := fun _ => some "frame"

/-- Handle 7, as `Attch` registers it. -/
def demoHandle : Handle := ⟨7, "", "", ⟨70⟩⟩

/-- A handle registered under id 0. -/
def demoHandleZero : Handle := ⟨0, "", "", ⟨71⟩⟩

/-- Session 42 with handles 7 and 0, the object at address 1. -/
def demoSession : Session where
  addr := 1
  ID := 42
  Handles := (GoMap.empty.set 7 demoHandle).set 0 demoHandleZero
  Events := ⟨420⟩

/-- A gateway with session 42 registered, requests 1 and 2 pending and unused,
and request 3 already used. -/
def demoGateway : Gateway where
  Sessions := GoMap.empty.set 42 demoSession
  transactions := ((GoMap.empty.set 1 ⟨10⟩).set 2 ⟨20⟩).set 3 ⟨30⟩
  transactionsUsed := ((GoMap.empty.set 1 false).set 2 false).set 3 true

/-- Two replies, arriving in the order opposite to their ids. -/
def demoReplies : List Frame :=
  [⟨⟨"event", "xx", 42, 7⟩, .EventMsg ⟨"joined", none⟩⟩,
   ⟨⟨"success", "x", 0, 0⟩, .SuccessMsg ⟨⟨42⟩⟩⟩]

/-- A push frame for handle 7 of session 42. -/
def demoPush : Frame := ⟨⟨"media", "", 42, 7⟩, .MediaMsg "audio"⟩

/-- A push frame whose handle id is zero. -/
def demoPushZero : Frame := ⟨⟨"hangup", "", 42, 0⟩, .HangupMsg "bye"⟩

/-- The two phases of a `message` request: an Ack and then an Event, both
under id 1. -/
def demoTwoPhase : List Frame :=
  [⟨⟨"ack", "x", 42, 0⟩, .AckMsg ⟨⟩⟩,
   ⟨⟨"event", "x", 42, 7⟩, .EventMsg ⟨"joined", none⟩⟩]

/-- An Ack and two Events under id 1. -/
def demoThreePhase : List Frame :=
  demoTwoPhase ++ [⟨⟨"event", "x", 42, 7⟩, .EventMsg ⟨"talking", none⟩⟩]

/-- A frame under the used id 3 for handle 8, which session 42 does not have. -/
def demoPushUsed : Frame := ⟨⟨"event", "xxx", 42, 8⟩, .EventMsg ⟨"talking", none⟩⟩

/-- A push frame for session 99, which the gateway does not have. -/
def demoPushUnknown : Frame := ⟨⟨"media", "", 99, 7⟩, .MediaMsg "video"⟩

/-- The deliveries started by a push for (43, 9) after `Create` was answered
with Success, id 43, and `Attch` on the session it returned with Success,
id 9. -/
def demoCreateAttachPush : Except Panic (List Delivery) :=
  match demoGateway.Create demoExtern 5 ⟨50⟩ 2 ⟨430⟩ (.SuccessMsg ⟨⟨43⟩⟩) with
  | .error p => .error p
  | .ok created =>
    match created.val with
    | none => .ok []
    | some session =>
      match session.Attch demoExtern created.state 6 ⟨60⟩ ⟨90⟩ "janus.plugin.videoroom"
          (.SuccessMsg ⟨⟨9⟩⟩) with
      | .error p => .error p
      | .ok attached =>
        .ok (attached.state.1.recvFrame demoExtern ⟨"media", "", 43, 9⟩ (.MediaMsg "audio")).2

/-- The deliveries started by a push for handle 7 of session 42 after `Detach`
on that handle was answered with an Ack. -/
def demoDetachPush : List Delivery :=
  ((demoHandle.Detach demoExtern demoGateway demoSession 5 ⟨50⟩ (.AckMsg ⟨⟩)).state.1.recvFrame
    demoExtern demoPush.base demoPush.msg).2

/-! ## The dispatcher: basic facts -/

theorem recvFrame_reply (x : Extern) (gateway : Gateway) (base : BaseMsg) (msg : Msg)
    (hid : base.ID ≠ "") (hu : gateway.used (x.FromString base.ID) = false) :
    gateway.recvFrame x base msg =
      ((match msg with
        | .EventMsg _ =>
          { gateway with
            transactionsUsed := gateway.transactionsUsed.set (x.FromString base.ID) true }
        | _ => gateway),
       [Delivery.slot (gateway.transactions (x.FromString base.ID)) msg]) := by
  unfold Gateway.recvFrame
  simp [hid, hu]

theorem recvFrame_push (x : Extern) (gateway : Gateway) (base : BaseMsg) (msg : Msg)
    (h : base.ID = "" ∨ gateway.used (x.FromString base.ID) = true) :
    gateway.recvFrame x base msg = (gateway, gateway.recvPush base msg) := by
  unfold Gateway.recvFrame
  have h' : (base.ID = "" ∨
      (if base.ID ≠ "" then gateway.used (x.FromString base.ID) else false) = true) := by
    rcases h with h | h
    · exact Or.inl h
    · by_cases hb : base.ID = ""
      · exact Or.inl hb
      · right; simp [hb, h]
  simp only [h', if_true]

/-- A frame is dispatched either as a push or as a reply. -/
theorem recvFrame_cases (x : Extern) (gateway : Gateway) (base : BaseMsg) :
    (base.ID = "" ∨ gateway.used (x.FromString base.ID) = true) ∨
    (base.ID ≠ "" ∧ gateway.used (x.FromString base.ID) = false) := by
  by_cases hb : base.ID = ""
  · exact Or.inl (Or.inl hb)
  · cases hv : gateway.used (x.FromString base.ID) with
    | false => exact Or.inr ⟨hb, rfl⟩
    | true => exact Or.inl (Or.inr rfl)

theorem recvFrame_transactions (x : Extern) (gateway : Gateway) (base : BaseMsg) (msg : Msg) :
    (gateway.recvFrame x base msg).1.transactions = gateway.transactions := by
  rcases recvFrame_cases x gateway base with h | ⟨hid, hu⟩
  · rw [recvFrame_push x gateway base msg h]
  · rw [recvFrame_reply x gateway base msg hid hu]
    cases msg <;> rfl

theorem recvFrame_Sessions (x : Extern) (gateway : Gateway) (base : BaseMsg) (msg : Msg) :
    (gateway.recvFrame x base msg).1.Sessions = gateway.Sessions := by
  rcases recvFrame_cases x gateway base with h | ⟨hid, hu⟩
  · rw [recvFrame_push x gateway base msg h]
  · rw [recvFrame_reply x gateway base msg hid hu]
    cases msg <;> rfl

/-- The used flag of an id other than the frame's is not touched. -/
theorem recvFrame_used_other (x : Extern) (gateway : Gateway) (base : BaseMsg) (msg : Msg)
    (id : XID) (hne : id ≠ x.FromString base.ID) :
    (gateway.recvFrame x base msg).1.used id = gateway.used id := by
  rcases recvFrame_cases x gateway base with h | ⟨hid, hu⟩
  · rw [recvFrame_push x gateway base msg h]
  · rw [recvFrame_reply x gateway base msg hid hu]
    cases msg <;> simp [Gateway.used, GoMap.set, hne]

/-- A used flag that is set stays set. -/
theorem recvFrame_used_mono (x : Extern) (gateway : Gateway) (base : BaseMsg) (msg : Msg)
    (id : XID) (hset : gateway.used id = true) :
    (gateway.recvFrame x base msg).1.used id = true := by
  by_cases hne : id = x.FromString base.ID
  · subst hne
    rw [recvFrame_push x gateway base msg (Or.inr hset)]
    exact hset
  · rw [recvFrame_used_other x gateway base msg id hne]
    exact hset

theorem slotMsgs_append (ch : ReplyChan) (ds es : List Delivery) :
    slotMsgs ch (ds ++ es) = slotMsgs ch ds ++ slotMsgs ch es := by
  induction ds with
  | nil => rfl
  | cons d ds ih =>
    cases d with
    | slot t m =>
      by_cases h : t = some ch <;> simp [slotMsgs, h, ih]
    | events c m => simp [slotMsgs, ih]

theorem eventMsgs_append (ch : EventChan) (ds es : List Delivery) :
    eventMsgs ch (ds ++ es) = eventMsgs ch ds ++ eventMsgs ch es := by
  induction ds with
  | nil => rfl
  | cons d ds ih =>
    cases d with
    | slot t m => simp [eventMsgs, ih]
    | events c m =>
      by_cases h : c = ch <;> simp [eventMsgs, h, ih]

/-- Reply deliveries put into channel `c` the messages whose slot is `c`. -/
theorem slotMsgs_map_slot (c : ReplyChan) (t : Frame → Option ReplyChan) (frames : List Frame) :
    slotMsgs c (frames.map fun f => Delivery.slot (t f) f.msg) =
      (frames.filter fun f => t f = some c).map Frame.msg := by
  induction frames with
  | nil => rfl
  | cons f fs ih =>
    by_cases h : t f = some c <;> simp [slotMsgs, h, ih]

/-- Reply deliveries put nothing into an event channel. -/
theorem eventMsgs_map_slot (e : EventChan) (t : Frame → Option ReplyChan) (frames : List Frame) :
    eventMsgs e (frames.map fun f => Delivery.slot (t f) f.msg) = [] := by
  induction frames with
  | nil => rfl
  | cons f fs ih => simp [eventMsgs, ih]

/-- Replies with distinct, unused ids are each dispatched into the channel
read under their own id. -/
theorem recv_replies (x : Extern) (frames : List Frame) :
    ∀ gateway : Gateway,
      (∀ f ∈ frames, f.base.ID ≠ "") →
      (∀ f ∈ frames, gateway.used (x.FromString f.base.ID) = false) →
      (frames.map fun f => x.FromString f.base.ID).Nodup →
      (gateway.recv x frames).2 =
        frames.map fun f =>
          Delivery.slot (gateway.transactions (x.FromString f.base.ID)) f.msg := by
  induction frames with
  | nil => intro gateway _ _ _; rfl
  | cons f fs ih =>
    intro gateway hid hu hnd
    have hidf := hid f (List.mem_cons_self f fs)
    have huf := hu f (List.mem_cons_self f fs)
    rw [List.map_cons, List.nodup_cons] at hnd
    have hrest : ∀ f' ∈ fs,
        (gateway.recvFrame x f.base f.msg).1.used (x.FromString f'.base.ID) = false := by
      intro f' hf'
      have hne : x.FromString f'.base.ID ≠ x.FromString f.base.ID := by
        intro e
        apply hnd.1
        rw [← e]
        exact List.mem_map_of_mem (fun f => x.FromString f.base.ID) hf'
      rw [recvFrame_used_other x gateway f.base f.msg _ hne]
      exact hu f' (List.mem_cons_of_mem f hf')
    have := ih (gateway.recvFrame x f.base f.msg).1
      (fun f' hf' => hid f' (List.mem_cons_of_mem f hf')) hrest hnd.2
    simp only [Gateway.recv, this, recvFrame_transactions, List.map_cons]
    rw [recvFrame_reply x gateway f.base f.msg hidf huf]
    rfl

theorem slotMsgs_recvPush (c : ReplyChan) (gateway : Gateway) (base : BaseMsg) (msg : Msg) :
    slotMsgs c (gateway.recvPush base msg) = [] := by
  unfold Gateway.recvPush
  by_cases h0 : base.Handle = 0
  · simp [h0, slotMsgs]
  · simp only [h0, if_false]
    cases gateway.Sessions base.Session with
    | none => rfl
    | some session =>
      dsimp only
      cases session.Handles base.Handle <;> rfl

/-- A used flag that is set stays set through any run of the loop. -/
theorem recv_used_mono (x : Extern) (id : XID) (frames : List Frame) :
    ∀ gateway : Gateway, gateway.used id = true → (gateway.recv x frames).1.used id = true := by
  induction frames with
  | nil => intro gateway h; exact h
  | cons f fs ih =>
    intro gateway h
    exact ih _ (recvFrame_used_mono x gateway f.base f.msg id h)

/-! ## C1: a reply goes to the slot of its own id -/

/-- C1. Replies whose transaction ids are registered, not marked used and
pairwise distinct, arriving in any order: each frame, dispatched by
`Gateway.recvFrame`, starts exactly one delivery, into the reply channel
registered under its own id, so that this channel gets the message once, every
other reply channel and every event channel gets nothing; and over the whole
run of `Gateway.recv` the deliveries are, frame by frame, the frame's message
into the channel registered under the frame's own id, each reply channel
getting exactly the replies whose id is registered to it and no event channel
getting anything. -/
theorem recv_reply_reaches_own_slot (x : Extern) (gateway : Gateway) (frames : List Frame)
    (hid : ∀ f ∈ frames, f.base.ID ≠ "")
    (hreg : ∀ f ∈ frames, gateway.transactions (x.FromString f.base.ID) ≠ none)
    (hunused : ∀ f ∈ frames, gateway.used (x.FromString f.base.ID) = false)
    (hdistinct : (frames.map fun f => x.FromString f.base.ID).Nodup) :
    ((gateway.recv x frames).2 =
        frames.map fun f =>
          Delivery.slot (gateway.transactions (x.FromString f.base.ID)) f.msg) ∧
    (∀ c, slotMsgs c (gateway.recv x frames).2 =
        (frames.filter fun f =>
          gateway.transactions (x.FromString f.base.ID) = some c).map Frame.msg) ∧
    (∀ e, eventMsgs e (gateway.recv x frames).2 = []) ∧
    (∀ f ∈ frames, ∃ ch,
        gateway.transactions (x.FromString f.base.ID) = some ch ∧
        (gateway.recvFrame x f.base f.msg).2 = [Delivery.slot (some ch) f.msg] ∧
        slotMsgs ch (gateway.recvFrame x f.base f.msg).2 = [f.msg] ∧
        (∀ c, c ≠ ch → slotMsgs c (gateway.recvFrame x f.base f.msg).2 = []) ∧
        (∀ e, eventMsgs e (gateway.recvFrame x f.base f.msg).2 = [])) := by
  have hrun := recv_replies x frames gateway hid hunused hdistinct
  refine ⟨hrun, ?_, ?_, ?_⟩
  · intro c
    rw [hrun]
    exact slotMsgs_map_slot c _ frames
  · intro e
    rw [hrun]
    exact eventMsgs_map_slot e _ frames
  · intro f hf
    cases hch : gateway.transactions (x.FromString f.base.ID) with
    | none => exact absurd hch (hreg f hf)
    | some ch =>
      have hstep := recvFrame_reply x gateway f.base f.msg (hid f hf) (hunused f hf)
      rw [hch] at hstep
      refine ⟨ch, rfl, ?_, ?_, ?_, ?_⟩
      · rw [hstep]
      · rw [hstep]; simp [slotMsgs]
      · intro c hc
        rw [hstep]
        have : ¬ (some ch = some c) := fun e => hc (Option.some.inj e).symm
        simp [slotMsgs, this]
      · intro e
        rw [hstep]; rfl

/-- C1 at a concrete input: an Event under id 2 and a Success under id 1,
arriving in that order, go to channels 20 and 10. -/
theorem recv_reply_reaches_own_slot_witness :
    (demoGateway.recv demoExtern demoReplies).2 =
      [Delivery.slot (some ⟨20⟩) (.EventMsg ⟨"joined", none⟩),
       Delivery.slot (some ⟨10⟩) (.SuccessMsg ⟨⟨42⟩⟩)] :=
  (recv_reply_reaches_own_slot demoExtern demoGateway demoReplies
    (by decide) (by decide) (by decide) (by decide)).1

/-! ## C2: push frames -/

/-- C2, the claim as stated fails: session 42 is registered and handle id 0 is
a key of its handles, yet a push frame for (42, 0) starts no delivery, because
line 236 sets frames with handle id zero aside before any lookup. -/
theorem recv_push_handle_zero_not_delivered :
    demoPushZero.base.ID = "" ∧
    (∃ session handle,
        demoGateway.Sessions demoPushZero.base.Session = some session ∧
        session.Handles demoPushZero.base.Handle = some handle) ∧
    (demoGateway.recvFrame demoExtern demoPushZero.base demoPushZero.msg).2 = [] :=
  ⟨rfl, ⟨demoSession, demoHandleZero, rfl, rfl⟩, rfl⟩

/-- C2 as amended. A frame with no transaction id, or whose transaction id is
marked used, puts nothing into any reply channel; if its handle id is not zero,
its session id is a key of `Sessions` and its handle id a key of that
session's `Handles`, it starts exactly one delivery, into that handle's
`Events` channel; if its handle id is zero or either lookup fails, it starts
no delivery at all. -/
theorem recv_push_routed_by_session_and_handle (x : Extern) (gateway : Gateway)
    (base : BaseMsg) (msg : Msg)
    (hpush : base.ID = "" ∨ gateway.used (x.FromString base.ID) = true) :
    (∀ c, slotMsgs c (gateway.recvFrame x base msg).2 = []) ∧
    (∀ session handle, base.Handle ≠ 0 →
        gateway.Sessions base.Session = some session →
        session.Handles base.Handle = some handle →
        (gateway.recvFrame x base msg).2 = [Delivery.events handle.Events msg] ∧
        eventMsgs handle.Events (gateway.recvFrame x base msg).2 = [msg] ∧
        ∀ e, e ≠ handle.Events → eventMsgs e (gateway.recvFrame x base msg).2 = []) ∧
    (base.Handle = 0 → (gateway.recvFrame x base msg).2 = []) ∧
    (gateway.Sessions base.Session = none → (gateway.recvFrame x base msg).2 = []) ∧
    (∀ session, gateway.Sessions base.Session = some session →
        session.Handles base.Handle = none → (gateway.recvFrame x base msg).2 = []) := by
  rw [recvFrame_push x gateway base msg hpush]
  refine ⟨fun c => slotMsgs_recvPush c gateway base msg, ?_, ?_, ?_, ?_⟩
  · intro session handle h0 hs hh
    have hout : gateway.recvPush base msg = [Delivery.events handle.Events msg] := by
      simp [Gateway.recvPush, h0, hs, hh]
    refine ⟨hout, ?_, ?_⟩
    · simp [hout, eventMsgs]
    · intro e he
      have : ¬ (handle.Events = e) := fun h => he h.symm
      simp [hout, eventMsgs, this]
  · intro h0
    simp [Gateway.recvPush, h0]
  · intro hs
    by_cases h0 : base.Handle = 0 <;> simp [Gateway.recvPush, h0, hs]
  · intro session hs hh
    by_cases h0 : base.Handle = 0 <;> simp [Gateway.recvPush, h0, hs, hh]

/-- C2 as amended, at a concrete input: a media push for handle 7 of session
42 goes into the event channel of that handle. -/
theorem recv_push_routed_by_session_and_handle_witness :
    (demoGateway.recvFrame demoExtern demoPush.base demoPush.msg).2 =
      [Delivery.events ⟨70⟩ (.MediaMsg "audio")] :=
  ((recv_push_routed_by_session_and_handle demoExtern demoGateway demoPush.base demoPush.msg
    (Or.inl rfl)).2.1 demoSession demoHandle (by decide) rfl rfl).1

/-! ## C3: the used flag -/

/-- A dispatched Event that carries a transaction id leaves the used flag of
that id set, whichever branch dispatched it. -/
theorem recvFrame_event_sets_used (x : Extern) (gateway : Gateway) (base : BaseMsg) (msg : Msg)
    (hid : base.ID ≠ "") (hev : msg.isEvent = true) :
    (gateway.recvFrame x base msg).1.used (x.FromString base.ID) = true := by
  cases hu : gateway.used (x.FromString base.ID) with
  | true => exact recvFrame_used_mono x gateway base msg _ hu
  | false =>
    rw [recvFrame_reply x gateway base msg hid hu]
    cases msg <;> simp [Msg.isEvent] at hev
    simp [Gateway.used, GoMap.set]

/-- C3. When a frame whose transaction id is not yet marked used is dispatched,
the flag of that id afterwards is true exactly when the message is an
`EventMsg`, and false for every other message type; and once an `EventMsg`
carrying an id has been dispatched, any frame carrying that id, after any
further frames, is dispatched by the push branch on (session id, handle id),
leaves the gateway as it is and puts nothing into any reply channel. -/
theorem recv_used_flag_two_phase (x : Extern) (gateway : Gateway) (base : BaseMsg) (msg : Msg)
    (hid : base.ID ≠ "") :
    (gateway.used (x.FromString base.ID) = false →
        (gateway.recvFrame x base msg).1.used (x.FromString base.ID) = msg.isEvent ∧
        (gateway.recvFrame x base msg).2 =
          [Delivery.slot (gateway.transactions (x.FromString base.ID)) msg]) ∧
    (msg.isEvent = true → ∀ (between : List Frame) (later : Frame),
        x.FromString later.base.ID = x.FromString base.ID →
        ((gateway.recvFrame x base msg).1.recv x between).1.recvFrame x later.base later.msg =
          (((gateway.recvFrame x base msg).1.recv x between).1,
           ((gateway.recvFrame x base msg).1.recv x between).1.recvPush later.base later.msg) ∧
        ∀ c, slotMsgs c
          (((gateway.recvFrame x base msg).1.recv x between).1.recvFrame
            x later.base later.msg).2 = []) := by
  constructor
  · intro hunused
    rw [recvFrame_reply x gateway base msg hid hunused]
    refine ⟨?_, rfl⟩
    cases msg <;> simp [Gateway.used, GoMap.set, Msg.isEvent] <;> exact hunused
  · intro hev between later hsame
    have hset : ((gateway.recvFrame x base msg).1.recv x between).1.used
        (x.FromString later.base.ID) = true := by
      rw [hsame]
      exact recv_used_mono x _ between _ (recvFrame_event_sets_used x gateway base msg hid hev)
    have hstep := recvFrame_push x _ later.base later.msg (Or.inr hset)
    refine ⟨hstep, ?_⟩
    intro c
    rw [hstep]
    exact slotMsgs_recvPush c _ _ _

/-- C3 at a concrete input: the Event under id 2 sets the flag of id 2, and a
second Event under id 2 for handle 7 of session 42 then goes into that
handle's event channel. -/
theorem recv_used_flag_two_phase_witness :
    ((demoGateway.recvFrame demoExtern ⟨"event", "xx", 42, 7⟩
        (.EventMsg ⟨"joined", none⟩)).1.used 2 = true) ∧
    ((demoGateway.recvFrame demoExtern ⟨"event", "xx", 42, 7⟩
        (.EventMsg ⟨"joined", none⟩)).1.recvFrame demoExtern ⟨"event", "xx", 42, 7⟩
        (.EventMsg ⟨"talking", none⟩)).2 = [Delivery.events ⟨70⟩ (.EventMsg ⟨"talking", none⟩)] :=
  have h := recv_used_flag_two_phase demoExtern demoGateway ⟨"event", "xx", 42, 7⟩
    (.EventMsg ⟨"joined", none⟩) (by decide)
  ⟨(h.1 rfl).1, by
    have h2 := (h.2 rfl [] ⟨⟨"event", "xx", 42, 7⟩, .EventMsg ⟨"talking", none⟩⟩ rfl).1
    simp only [Gateway.recv] at h2
    rw [h2]
    rfl⟩

/-! ## C4: `Handle.Message` waits past Acks -/

theorem getMessage_replicate_ack (k : Nat) (rest : List Msg) :
    Handle.getMessage (List.replicate k (Msg.AckMsg ⟨⟩) ++ rest) = Handle.getMessage rest := by
  induction k with
  | zero => rfl
  | succ k ih => simpa [List.replicate_succ, Handle.getMessage] using ih

/-- Whatever `Handle.getMessage` returns comes from the channel: the value is
an Event it yielded, the error an Error it yielded or the `unexpected` error. -/
theorem getMessage_returns (replies : List Msg) :
    ∀ val err, Handle.getMessage replies = some (val, err) →
      (∀ e, val = some e → Msg.EventMsg e ∈ replies) ∧
      (∀ e, err = some (Error.remote e) → Msg.ErrorMsg e ∈ replies) ∧
      (val.isSome = !err.isSome) := by
  induction replies with
  | nil => intro val err h; simp [Handle.getMessage] at h
  | cons m rest ih =>
    intro val err h
    cases m with
    | AckMsg a =>
      simp only [Handle.getMessage] at h
      obtain ⟨h1, h2, h3⟩ := ih val err h
      exact ⟨fun e he => List.mem_cons_of_mem _ (h1 e he),
        fun e he => List.mem_cons_of_mem _ (h2 e he), h3⟩
    | EventMsg e =>
      simp only [Handle.getMessage, Option.some.injEq, Prod.mk.injEq] at h
      obtain ⟨rfl, rfl⟩ := h
      simp
    | ErrorMsg e =>
      simp only [Handle.getMessage, Option.some.injEq, Prod.mk.injEq] at h
      obtain ⟨rfl, rfl⟩ := h
      simp
    | SuccessMsg _ =>
      simp only [Handle.getMessage, Option.some.injEq, Prod.mk.injEq] at h
      obtain ⟨rfl, rfl⟩ := h
      simp [unexpected]
    | InfoMsg _ =>
      simp only [Handle.getMessage, Option.some.injEq, Prod.mk.injEq] at h
      obtain ⟨rfl, rfl⟩ := h
      simp [unexpected]
    | MediaMsg _ =>
      simp only [Handle.getMessage, Option.some.injEq, Prod.mk.injEq] at h
      obtain ⟨rfl, rfl⟩ := h
      simp [unexpected]
    | WebRTCUpMsg _ =>
      simp only [Handle.getMessage, Option.some.injEq, Prod.mk.injEq] at h
      obtain ⟨rfl, rfl⟩ := h
      simp [unexpected]
    | SlowLinkMsg _ =>
      simp only [Handle.getMessage, Option.some.injEq, Prod.mk.injEq] at h
      obtain ⟨rfl, rfl⟩ := h
      simp [unexpected]
    | HangupMsg _ =>
      simp only [Handle.getMessage, Option.some.injEq, Prod.mk.injEq] at h
      obtain ⟨rfl, rfl⟩ := h
      simp [unexpected]

/-- C4. When the reply channel of `Handle.Message` yields `k` Acks and then a
message `m` that is not an Ack (whatever follows), the call returns: `(m, nil)`
for an Event, `(nil, m)` for an Error, and otherwise `(nil, unexpected
"message")`, whose text is "unexpected response received: 'message' request".
And whatever the channel yields, a returned value is an Event the channel
yielded, so no Ack is ever returned. -/
theorem message_resolves_past_acks (x : Extern) (gateway : Gateway) (session : Session)
    (handle : Handle) (guid : XID) (ch : ReplyChan) (body jsep : Value)
    (k : Nat) (m : Msg) (rest : List Msg) (hm : ∀ a, m ≠ Msg.AckMsg a) :
    ((Handle.Message x gateway session handle guid ch body jsep
        (List.replicate k (Msg.AckMsg ⟨⟩) ++ m :: rest)).map fun o => (o.val, o.err)) =
      some (match m with
        | .EventMsg e => (some e, none)
        | .ErrorMsg e => (none, some (Error.remote e))
        | _ => (none, some (unexpected "message"))) ∧
    unexpected "message" =
      Error.errorf "unexpected response received: \x27message\x27 request" ∧
    (∀ replies o,
        Handle.Message x gateway session handle guid ch body jsep replies = some o →
        (∀ e, o.val = some e → Msg.EventMsg e ∈ replies) ∧
        (∀ e, o.err = some (Error.remote e) → Msg.ErrorMsg e ∈ replies) ∧
        (o.val.isSome = !o.err.isSome)) := by
  refine ⟨?_, by decide, ?_⟩
  · unfold Handle.Message
    rw [getMessage_replicate_ack]
    cases m with
    | AckMsg a => exact absurd rfl (hm a)
    | _ => rfl
  · intro replies o h
    unfold Handle.Message at h
    cases hg : Handle.getMessage replies with
    | none => simp [hg] at h
    | some r =>
      obtain ⟨val, err⟩ := r
      simp only [hg, Option.some.injEq] at h
      subst h
      exact getMessage_returns replies val err hg

/-- C4 at a concrete input: Ack, Ack, Event resolves to the Event. -/
theorem message_resolves_past_acks_witness :
    ((Handle.Message demoExtern demoGateway demoSession demoHandle 5 ⟨50⟩ (.obj "join") .nil
        (List.replicate 2 (Msg.AckMsg ⟨⟩) ++ Msg.EventMsg ⟨"joined", none⟩ :: [])).map
      fun o => (o.val, o.err)) = some (some ⟨"joined", none⟩, none) :=
  (message_resolves_past_acks demoExtern demoGateway demoSession demoHandle 5 ⟨50⟩
    (.obj "join") .nil 2 (Msg.EventMsg ⟨"joined", none⟩) [] (by intro a; simp)).1

/-! ## C5 to C8: replies and registries -/

/-- A write through a session pointer leaves the keys of `Sessions` as they
are; entries holding the pointer show the new content, the others are as
before. -/
theorem writeSession_Sessions (gateway : Gateway) (session : Session) (k : Nat) :
    (gateway.writeSession session).Sessions k =
      match gateway.Sessions k with
      | none => none
      | some held => if held.addr = session.addr then some session else some held := rfl

/-- C5. On a Success reply with `data.id = n`, `Gateway.Create` returns a
session with ID `n` and no handles, and afterwards `Sessions` maps `n` to that
session and every other key as before; `Session.Attch` returns a handle with ID
`n`, and afterwards the session's `Handles` maps `n` to that handle and every
other key as before, the session being otherwise the same object, which every
entry of `Sessions` that holds it shows with the new handle while every other
entry is as before.  On an Error reply both return `(nil, that error)` and
leave `Sessions` and the session as they were. -/
theorem create_attach_success_registers (x : Extern) (gateway : Gateway) (session : Session)
    (guid : XID) (ch : ReplyChan) (addr : Nat) (events : EventChan) (plugin : String)
    (m : SuccessMsg) (e : ErrorMsg) :
    (∃ o created, gateway.Create x guid ch addr events (.SuccessMsg m) = .ok o ∧
        o.val = some created ∧ o.err = none ∧
        created.ID = m.Data.ID ∧ (∀ k, created.Handles k = none) ∧
        o.state.Sessions m.Data.ID = some created ∧
        ∀ k, k ≠ m.Data.ID → o.state.Sessions k = gateway.Sessions k) ∧
    (∃ o attached, session.Attch x gateway guid ch events plugin (.SuccessMsg m) = .ok o ∧
        o.val = some attached ∧ o.err = none ∧
        attached.ID = m.Data.ID ∧
        o.state.2.Handles m.Data.ID = some attached ∧
        (∀ k, k ≠ m.Data.ID → o.state.2.Handles k = session.Handles k) ∧
        o.state.2.ID = session.ID ∧ o.state.2.addr = session.addr ∧
        o.state.2.Events = session.Events ∧
        (∀ k, o.state.1.Sessions k =
          match gateway.Sessions k with
          | none => none
          | some held => if held.addr = session.addr then some o.state.2 else some held)) ∧
    (∃ o, gateway.Create x guid ch addr events (.ErrorMsg e) = .ok o ∧
        o.val = none ∧ o.err = some (Error.remote e) ∧
        o.state.Sessions = gateway.Sessions) ∧
    (∃ o, session.Attch x gateway guid ch events plugin (.ErrorMsg e) = .ok o ∧
        o.val = none ∧ o.err = some (Error.remote e) ∧
        o.state.2 = session ∧ o.state.1.Sessions = gateway.Sessions) := by
  refine ⟨⟨_, _, rfl, rfl, rfl, rfl, fun _ => rfl, ?_, ?_⟩,
    ⟨_, _, rfl, rfl, rfl, rfl, ?_, ?_, rfl, rfl, rfl, fun _ => rfl⟩,
    ⟨_, rfl, rfl, rfl, rfl⟩, ⟨_, rfl, rfl, rfl, rfl, rfl⟩⟩
  · simp [GoMap.set, Gateway.send]
  · intro k hk
    simp [GoMap.set, Gateway.send, hk]
  · simp [GoMap.set]
  · intro k hk
    simp [GoMap.set, hk]

/-- C6. On an Ack reply, `Session.Destroy` returns `(that Ack, nil)` and
afterwards `Sessions` has no entry for the session's ID and every other key as
before; `Handle.Detach` returns `(that Ack, nil)` and afterwards the owning
session's `Handles` has no entry for the handle's ID and every other key as
before, the session being otherwise the same object, which every entry of
`Sessions` that holds it shows without the handle while every other entry is
as before.  On an Error reply both return `(nil, that error)` and `Sessions`
and the session are as they were. -/
theorem destroy_detach_ack_unregisters (x : Extern) (gateway : Gateway) (session : Session)
    (handle : Handle) (guid : XID) (ch : ReplyChan) (a : AckMsg) (e : ErrorMsg) :
    ((session.Destroy x gateway guid ch (.AckMsg a)).val = some a ∧
      (session.Destroy x gateway guid ch (.AckMsg a)).err = none ∧
      (session.Destroy x gateway guid ch (.AckMsg a)).state.Sessions session.ID = none ∧
      ∀ k, k ≠ session.ID →
        (session.Destroy x gateway guid ch (.AckMsg a)).state.Sessions k = gateway.Sessions k) ∧
    ((handle.Detach x gateway session guid ch (.AckMsg a)).val = some a ∧
      (handle.Detach x gateway session guid ch (.AckMsg a)).err = none ∧
      (handle.Detach x gateway session guid ch (.AckMsg a)).state.2.Handles handle.ID = none ∧
      (∀ k, k ≠ handle.ID →
        (handle.Detach x gateway session guid ch (.AckMsg a)).state.2.Handles k =
          session.Handles k) ∧
      (handle.Detach x gateway session guid ch (.AckMsg a)).state.2.ID = session.ID ∧
      (handle.Detach x gateway session guid ch (.AckMsg a)).state.2.addr = session.addr ∧
      (handle.Detach x gateway session guid ch (.AckMsg a)).state.2.Events = session.Events ∧
      (∀ k, (handle.Detach x gateway session guid ch (.AckMsg a)).state.1.Sessions k =
        match gateway.Sessions k with
        | none => none
        | some held =>
          if held.addr = session.addr then
            some (handle.Detach x gateway session guid ch (.AckMsg a)).state.2
          else some held)) ∧
    ((session.Destroy x gateway guid ch (.ErrorMsg e)).val = none ∧
      (session.Destroy x gateway guid ch (.ErrorMsg e)).err = some (Error.remote e) ∧
      (session.Destroy x gateway guid ch (.ErrorMsg e)).state.Sessions = gateway.Sessions) ∧
    ((handle.Detach x gateway session guid ch (.ErrorMsg e)).val = none ∧
      (handle.Detach x gateway session guid ch (.ErrorMsg e)).err = some (Error.remote e) ∧
      (handle.Detach x gateway session guid ch (.ErrorMsg e)).state.2 = session ∧
      (handle.Detach x gateway session guid ch (.ErrorMsg e)).state.1.Sessions =
        gateway.Sessions) := by
  refine ⟨⟨rfl, rfl, ?_, ?_⟩, ⟨rfl, rfl, ?_, ?_, rfl, rfl, rfl, fun _ => rfl⟩,
    ⟨rfl, rfl, rfl⟩, ⟨rfl, rfl, rfl, rfl⟩⟩
  · simp [Session.Destroy, GoMap.delete]
  · intro k hk
    simp [Session.Destroy, Session.send, Gateway.send, GoMap.delete, hk]
  · simp [Handle.Detach, GoMap.delete]
  · intro k hk
    simp [Handle.Detach, GoMap.delete, hk]

/-- After `Create` (Success, id 43) and `Attch` on the session it returned
(Success, id 9), a push for (43, 9) on the gateway handed back goes into the
new handle's event channel. -/
theorem create_attach_then_push_delivered :
    demoCreateAttachPush = .ok [Delivery.events ⟨90⟩ (.MediaMsg "audio")] := rfl

/-- A push for handle 7 of session 42 is delivered before `Detach` and, on the
gateway handed back by `Detach` on an Ack, dropped. -/
theorem detach_then_push_dropped :
    (demoGateway.recvFrame demoExtern demoPush.base demoPush.msg).2 =
      [Delivery.events ⟨70⟩ (.MediaMsg "audio")] ∧
    demoDetachPush = [] := ⟨rfl, rfl⟩

/-- With a reply that is neither Success nor Error, `Gateway.Create` and
`Session.Attch` dereference a nil pointer; with a reply that is neither Ack
nor Error, `Session.Destroy` and `Handle.Detach` return `(nil, nil)` and remove
the session, respectively the handle, from its registry. -/
theorem registry_operations_on_unexpected_reply (x : Extern) (gateway : Gateway)
    (session : Session) (handle : Handle) (guid : XID) (ch : ReplyChan) (addr : Nat)
    (events : EventChan) (plugin : String) :
    (∀ msg, (∀ m, msg ≠ Msg.SuccessMsg m) → (∀ m, msg ≠ Msg.ErrorMsg m) →
        gateway.Create x guid ch addr events msg = .error Panic.nilPointerDereference ∧
        session.Attch x gateway guid ch events plugin msg =
          .error Panic.nilPointerDereference) ∧
    (∀ msg, (∀ m, msg ≠ Msg.AckMsg m) → (∀ m, msg ≠ Msg.ErrorMsg m) →
        ((session.Destroy x gateway guid ch msg).val = none ∧
          (session.Destroy x gateway guid ch msg).err = none ∧
          (session.Destroy x gateway guid ch msg).state.Sessions session.ID = none) ∧
        ((handle.Detach x gateway session guid ch msg).val = none ∧
          (handle.Detach x gateway session guid ch msg).err = none ∧
          (handle.Detach x gateway session guid ch msg).state.2.Handles handle.ID = none)) := by
  constructor
  · intro msg hs he
    cases msg with
    | SuccessMsg m => exact absurd rfl (hs m)
    | ErrorMsg m => exact absurd rfl (he m)
    | _ => exact ⟨rfl, rfl⟩
  · intro msg ha he
    cases msg with
    | AckMsg m => exact absurd rfl (ha m)
    | ErrorMsg m => exact absurd rfl (he m)
    | _ =>
      refine ⟨⟨rfl, rfl, ?_⟩, ⟨rfl, rfl, ?_⟩⟩
      · simp [Session.Destroy, GoMap.delete]
      · simp [Handle.Detach, GoMap.delete]

/-- C7, the code at the failing inputs. An Ack in reply to `create` or
`attach` makes `Gateway.Create` and `Session.Attch` dereference a nil pointer
instead of returning an error; an Event in reply to `destroy` or `detach`
makes `Session.Destroy` and `Handle.Detach` return `(nil, nil)`, a nil error,
and session 42, respectively handle 7, registered before, is registered no
more. -/
theorem unexpected_reply_faults_or_unregisters :
    demoGateway.Create demoExtern 5 ⟨50⟩ 2 ⟨500⟩ (.AckMsg ⟨⟩) =
      .error Panic.nilPointerDereference ∧
    demoSession.Attch demoExtern demoGateway 5 ⟨50⟩ ⟨500⟩ "janus.plugin.videoroom"
      (.AckMsg ⟨⟩) = .error Panic.nilPointerDereference ∧
    (demoGateway.Sessions 42).isSome = true ∧
    (demoSession.Destroy demoExtern demoGateway 5 ⟨50⟩ (.EventMsg ⟨"left", none⟩)).val = none ∧
    (demoSession.Destroy demoExtern demoGateway 5 ⟨50⟩ (.EventMsg ⟨"left", none⟩)).err = none ∧
    (demoSession.Destroy demoExtern demoGateway 5 ⟨50⟩
      (.EventMsg ⟨"left", none⟩)).state.Sessions 42 = none ∧
    (demoSession.Handles 7).isSome = true ∧
    (demoHandle.Detach demoExtern demoGateway demoSession 5 ⟨50⟩
      (.EventMsg ⟨"left", none⟩)).val = none ∧
    (demoHandle.Detach demoExtern demoGateway demoSession 5 ⟨50⟩
      (.EventMsg ⟨"left", none⟩)).err = none ∧
    (demoHandle.Detach demoExtern demoGateway demoSession 5 ⟨50⟩
      (.EventMsg ⟨"left", none⟩)).state.2.Handles 7 = none :=
  ⟨rfl, rfl, rfl, rfl, rfl, rfl, rfl, rfl, rfl, rfl⟩

/-- C8. For every reply `msg`: `Gateway.Info` returns `(msg, nil)` for an
Info, `Session.KeepAlive`, `Handle.Trickle` and `Handle.TrickleMany` for an
Ack, `Handle.Request` for a Success; each returns `(nil, msg)` for an Error and
otherwise `(nil, unexpected verb)` with the verb of its request (`info`,
`keepalive`, `message`, `trickle`, `trickle`); exactly one of value and error
is non-nil; `Sessions` is as before, and the session, to which none of them
writes, keeps its `Handles`. -/
theorem single_phase_reply_classification (x : Extern) (gateway : Gateway) (session : Session)
    (handle : Handle) (guid : XID) (ch : ReplyChan) (v : Value) (msg : Msg) :
    (((gateway.Info x guid ch msg).val, (gateway.Info x guid ch msg).err) =
        (match msg with
          | .InfoMsg m => (some m, none)
          | .ErrorMsg m => (none, some (Error.remote m))
          | _ => (none, some (unexpected "info"))) ∧
      ((gateway.Info x guid ch msg).val.isSome = !(gateway.Info x guid ch msg).err.isSome) ∧
      (gateway.Info x guid ch msg).state.Sessions = gateway.Sessions) ∧
    (((session.KeepAlive x gateway guid ch msg).val,
        (session.KeepAlive x gateway guid ch msg).err) =
        (match msg with
          | .AckMsg m => (some m, none)
          | .ErrorMsg m => (none, some (Error.remote m))
          | _ => (none, some (unexpected "keepalive"))) ∧
      ((session.KeepAlive x gateway guid ch msg).val.isSome =
        !(session.KeepAlive x gateway guid ch msg).err.isSome) ∧
      (session.KeepAlive x gateway guid ch msg).state.Sessions = gateway.Sessions) ∧
    (((handle.Request x gateway session guid ch v msg).val,
        (handle.Request x gateway session guid ch v msg).err) =
        (match msg with
          | .SuccessMsg m => (some m, none)
          | .ErrorMsg m => (none, some (Error.remote m))
          | _ => (none, some (unexpected "message"))) ∧
      ((handle.Request x gateway session guid ch v msg).val.isSome =
        !(handle.Request x gateway session guid ch v msg).err.isSome) ∧
      (handle.Request x gateway session guid ch v msg).state.Sessions = gateway.Sessions) ∧
    (((handle.Trickle x gateway session guid ch v msg).val,
        (handle.Trickle x gateway session guid ch v msg).err) =
        (match msg with
          | .AckMsg m => (some m, none)
          | .ErrorMsg m => (none, some (Error.remote m))
          | _ => (none, some (unexpected "trickle"))) ∧
      ((handle.Trickle x gateway session guid ch v msg).val.isSome =
        !(handle.Trickle x gateway session guid ch v msg).err.isSome) ∧
      (handle.Trickle x gateway session guid ch v msg).state.Sessions = gateway.Sessions) ∧
    (((handle.TrickleMany x gateway session guid ch v msg).val,
        (handle.TrickleMany x gateway session guid ch v msg).err) =
        (match msg with
          | .AckMsg m => (some m, none)
          | .ErrorMsg m => (none, some (Error.remote m))
          | _ => (none, some (unexpected "trickle"))) ∧
      ((handle.TrickleMany x gateway session guid ch v msg).val.isSome =
        !(handle.TrickleMany x gateway session guid ch v msg).err.isSome) ∧
      (handle.TrickleMany x gateway session guid ch v msg).state.Sessions =
        gateway.Sessions) ∧
    (∀ verb, unexpected verb =
        Error.errorf ("unexpected response received: \x27" ++ verb ++ "\x27 request")) := by
  refine ⟨?_, ?_, ?_, ?_, ?_, ?_⟩
  · cases msg <;> exact ⟨rfl, rfl, rfl⟩
  · cases msg <;> exact ⟨rfl, rfl, rfl⟩
  · cases msg <;> exact ⟨rfl, rfl, rfl⟩
  · cases msg <;> exact ⟨rfl, rfl, rfl⟩
  · cases msg <;> exact ⟨rfl, rfl, rfl⟩
  · intro verb
    rfl

/-! ## C10: the outbound envelope and the registered slot -/

/-- C10. `Handle.send` serialises the caller's envelope with `handle_id` set to
the handle's ID, `session_id` to the session's ID and `transaction` to the
string form of the generated id, every other key (`janus` among them) as the
caller set it, and hands the serialised envelope to the transport; afterwards
the correlation table maps the generated id to the caller's reply channel and
the used table maps it to false, every other key of both tables is as before,
and `Sessions` is as before. -/
theorem handle_send_envelope_and_slot (x : Extern) (gateway : Gateway) (session : Session)
    (handle : Handle) (guid : XID) (msg : Envelope) (transaction : ReplyChan) :
    ((handle.send x gateway session guid msg transaction).msg "handle_id" =
        some (Value.u64 handle.ID) ∧
      (handle.send x gateway session guid msg transaction).msg "session_id" =
        some (Value.u64 session.ID) ∧
      (handle.send x gateway session guid msg transaction).msg "transaction" =
        some (Value.str (x.IDString guid)) ∧
      (handle.send x gateway session guid msg transaction).msg "janus" = msg "janus" ∧
      (∀ key, key ≠ "handle_id" → key ≠ "session_id" → key ≠ "transaction" →
        (handle.send x gateway session guid msg transaction).msg key = msg key) ∧
      (handle.send x gateway session guid msg transaction).wire =
        x.Marshal (handle.send x gateway session guid msg transaction).msg) ∧
    ((handle.send x gateway session guid msg transaction).gateway.transactions guid =
        some transaction ∧
      (handle.send x gateway session guid msg transaction).gateway.transactionsUsed guid =
        some false ∧
      (handle.send x gateway session guid msg transaction).gateway.used guid = false ∧
      (∀ id, id ≠ guid →
        (handle.send x gateway session guid msg transaction).gateway.transactions id =
          gateway.transactions id ∧
        (handle.send x gateway session guid msg transaction).gateway.transactionsUsed id =
          gateway.transactionsUsed id) ∧
      (handle.send x gateway session guid msg transaction).gateway.Sessions =
        gateway.Sessions) := by
  refine ⟨⟨?_, ?_, ?_, ?_, ?_, rfl⟩, ⟨?_, ?_, ?_, ?_, rfl⟩⟩
  · simp [Handle.send, Session.send, Gateway.send, GoMap.set]
  · simp [Handle.send, Session.send, Gateway.send, GoMap.set]
  · simp [Handle.send, Session.send, Gateway.send, GoMap.set]
  · simp [Handle.send, Session.send, Gateway.send, GoMap.set]
  · intro key h1 h2 h3
    simp [Handle.send, Session.send, Gateway.send, GoMap.set, h1, h2, h3]
  · simp [Handle.send, Session.send, Gateway.send, GoMap.set]
  · simp [Handle.send, Session.send, Gateway.send, GoMap.set]
  · simp [Handle.send, Session.send, Gateway.send, GoMap.set, Gateway.used]
  · intro id hid
    simp [Handle.send, Session.send, Gateway.send, GoMap.set, hid]

/-! ## C9: what a reply slot receives -/

/-- Once the used flag of the only id that `ch` is registered under is set,
the loop puts nothing more into `ch`. -/
theorem recv_slot_silent_when_used (x : Extern) (id : XID) (ch : ReplyChan)
    (frames : List Frame) :
    ∀ gateway : Gateway,
      (∀ id', gateway.transactions id' = some ch → id' = id) →
      gateway.used id = true →
      slotMsgs ch (gateway.recv x frames).2 = [] := by
  induction frames with
  | nil => intro gateway _ _; rfl
  | cons f fs ih =>
    intro gateway hown hused
    have h1 : slotMsgs ch (gateway.recvFrame x f.base f.msg).2 = [] := by
      rcases recvFrame_cases x gateway f.base with h | ⟨hid, hu⟩
      · rw [recvFrame_push x gateway f.base f.msg h]
        exact slotMsgs_recvPush ch gateway f.base f.msg
      · rw [recvFrame_reply x gateway f.base f.msg hid hu]
        have hne : ¬ (gateway.transactions (x.FromString f.base.ID) = some ch) := by
          intro e
          rw [hown _ e, hused] at hu
          exact Bool.noConfusion hu
        simp [slotMsgs, hne]
    have h2 := ih (gateway.recvFrame x f.base f.msg).1
      (by rw [recvFrame_transactions]; exact hown)
      (recvFrame_used_mono x gateway f.base f.msg id hused)
    simp only [Gateway.recv, slotMsgs_append, h1, h2, List.append_nil]

/-- Nothing follows an Event in what the loop puts into a reply channel
registered under one id only. -/
theorem recv_slot_event_is_last (x : Extern) (id : XID) (ch : ReplyChan)
    (frames : List Frame) :
    ∀ gateway : Gateway,
      (∀ id', gateway.transactions id' = some ch → id' = id) →
      ∀ pre m post, slotMsgs ch (gateway.recv x frames).2 = pre ++ m :: post →
        m.isEvent = true → post = [] := by
  induction frames with
  | nil =>
    intro gateway _ pre m post h _
    simp [Gateway.recv, slotMsgs] at h
  | cons f fs ih =>
    intro gateway hown pre m post h hev
    have hown' : ∀ id', (gateway.recvFrame x f.base f.msg).1.transactions id' = some ch →
        id' = id := by
      rw [recvFrame_transactions]; exact hown
    simp only [Gateway.recv, slotMsgs_append] at h
    rcases recvFrame_cases x gateway f.base with hp | ⟨hid, hu⟩
    · rw [recvFrame_push x gateway f.base f.msg hp] at h
      simp only [slotMsgs_recvPush, List.nil_append] at h
      exact ih gateway hown pre m post h hev
    · by_cases hch : gateway.transactions (x.FromString f.base.ID) = some ch
      · have hfid : x.FromString f.base.ID = id := hown _ hch
        have hout : slotMsgs ch (gateway.recvFrame x f.base f.msg).2 = [f.msg] := by
          rw [recvFrame_reply x gateway f.base f.msg hid hu]
          simp [slotMsgs, hch]
        rw [hout] at h
        cases pre with
        | nil =>
          simp only [List.nil_append, List.singleton_append, List.cons.injEq] at h
          obtain ⟨hm, hpost⟩ := h
          subst hm
          have hflag : (gateway.recvFrame x f.base f.msg).1.used id = true := by
            rw [← hfid, recvFrame_reply x gateway f.base f.msg hid hu]
            cases hmsg : f.msg <;> simp [hmsg, Msg.isEvent] at hev
            simp [Gateway.used, GoMap.set]
          rw [← hpost]
          exact recv_slot_silent_when_used x id ch fs _ hown' hflag
        | cons p pre' =>
          simp only [List.singleton_append, List.cons_append, List.cons.injEq] at h
          exact ih _ hown' pre' m post h.2 hev
      · have hout : slotMsgs ch (gateway.recvFrame x f.base f.msg).2 = [] := by
          rw [recvFrame_reply x gateway f.base f.msg hid hu]
          simp [slotMsgs, hch]
        rw [hout, List.nil_append] at h
        exact ih _ hown' pre m post h hev

/-- A list in which nothing follows an element satisfying `p` has at most one
such element. -/
theorem filter_length_le_one_of_last {α : Type} (p : α → Bool) (l : List α)
    (h : ∀ pre m post, l = pre ++ m :: post → p m = true → post = []) :
    (l.filter p).length ≤ 1 := by
  induction l with
  | nil => simp
  | cons a l ih =>
    by_cases ha : p a = true
    · have : l = [] := h [] a l rfl ha
      subst this
      simp [ha]
    · have hl : (l.filter p).length ≤ 1 :=
        ih (fun pre m post e hm => h (a :: pre) m post (by rw [e]; rfl) hm)
      simpa [List.filter, ha] using hl

/-- C9, the claim as stated fails: an Ack and then an Event under id 1, the
two phases of a `message` request, are both put into the reply channel
registered under id 1. -/
theorem recv_slot_receives_two_messages :
    demoGateway.transactions 1 = some ⟨10⟩ ∧
    slotMsgs ⟨10⟩ (demoGateway.recv demoExtern demoTwoPhase).2 =
      [Msg.AckMsg ⟨⟩, Msg.EventMsg ⟨"joined", none⟩] ∧
    (slotMsgs ⟨10⟩ (demoGateway.recv demoExtern demoTwoPhase).2).length = 2 := by
  decide

/-- C9 as amended. For every run of `Gateway.recv` from any gateway state, and
every reply channel that the correlation table holds under one id only: among
the messages put into it there is at most one `EventMsg`, and no message is put
into it after that `EventMsg`. -/
theorem recv_slot_at_most_one_event (x : Extern) (gateway : Gateway) (id : XID)
    (ch : ReplyChan) (frames : List Frame)
    (hown : ∀ id', gateway.transactions id' = some ch → id' = id) :
    ((slotMsgs ch (gateway.recv x frames).2).filter Msg.isEvent).length ≤ 1 ∧
    (∀ pre m post, slotMsgs ch (gateway.recv x frames).2 = pre ++ m :: post →
        m.isEvent = true → post = []) :=
  ⟨filter_length_le_one_of_last Msg.isEvent _
      (recv_slot_event_is_last x id ch frames gateway hown),
    recv_slot_event_is_last x id ch frames gateway hown⟩

/-- C9 as amended, at a concrete input: of Ack, Event, Event under id 1 the
reply channel of id 1 gets the Ack and the first Event only. -/
theorem recv_slot_at_most_one_event_witness :
    ((slotMsgs ⟨10⟩ (demoGateway.recv demoExtern demoThreePhase).2).filter
      Msg.isEvent).length ≤ 1 :=
  (recv_slot_at_most_one_event demoExtern demoGateway 1 ⟨10⟩ demoThreePhase
    (fun id' h => by
      unfold demoGateway at h
      simp only [GoMap.set, GoMap.empty] at h
      by_cases h3 : id' = 3
      · simp [h3] at h
      · by_cases h2 : id' = 2
        · simp [h2] at h
        · by_cases h1 : id' = 1
          · exact h1
          · simp [h1, h2, h3] at h)).1

/-! ## C11: push frames leave the gateway as it is -/

theorem eventMsgs_nil (e : EventChan) : eventMsgs e [] = [] := rfl

/-- C11. A frame routed as a push (no transaction id, or a transaction id
marked used) leaves the gateway exactly as it was: the correlation table, the
used table, `Sessions`, and with it every registered session and its
`Handles`.  If its session id is not a key of `Sessions`, or its handle id not
a key of that session's `Handles`, or its handle id is zero, the frame starts
no delivery: no reply channel and no event channel gets anything. -/
theorem recv_push_leaves_gateway (x : Extern) (gateway : Gateway) (base : BaseMsg) (msg : Msg)
    (hpush : base.ID = "" ∨ gateway.used (x.FromString base.ID) = true) :
    (gateway.recvFrame x base msg).1 = gateway ∧
    ((gateway.recvFrame x base msg).1.transactions = gateway.transactions ∧
      (gateway.recvFrame x base msg).1.transactionsUsed = gateway.transactionsUsed ∧
      (gateway.recvFrame x base msg).1.Sessions = gateway.Sessions) ∧
    (∀ k session, gateway.Sessions k = some session →
        (gateway.recvFrame x base msg).1.Sessions k = some session ∧
        ∀ session', (gateway.recvFrame x base msg).1.Sessions k = some session' →
          session'.Handles = session.Handles) ∧
    ((gateway.Sessions base.Session = none ∨
        (∃ session, gateway.Sessions base.Session = some session ∧
          session.Handles base.Handle = none) ∨
        base.Handle = 0) →
      (gateway.recvFrame x base msg).2 = [] ∧
      (∀ c, slotMsgs c (gateway.recvFrame x base msg).2 = []) ∧
      (∀ e, eventMsgs e (gateway.recvFrame x base msg).2 = [])) := by
  rw [recvFrame_push x gateway base msg hpush]
  refine ⟨rfl, ⟨rfl, rfl, rfl⟩, ?_, ?_⟩
  · intro k session hk
    refine ⟨hk, ?_⟩
    intro session' hk'
    have hk'' : gateway.Sessions k = some session' := hk'
    rw [hk] at hk''
    rw [Option.some.inj hk'']
  · intro hdrop
    have hout : gateway.recvPush base msg = [] := by
      by_cases h0 : base.Handle = 0
      · simp [Gateway.recvPush, h0]
      · rcases hdrop with hs | ⟨session, hs, hh⟩ | hz
        · simp [Gateway.recvPush, h0, hs]
        · simp [Gateway.recvPush, h0, hs, hh]
        · exact absurd hz h0
    refine ⟨hout, fun c => slotMsgs_recvPush c gateway base msg, ?_⟩
    intro e
    show eventMsgs e (gateway.recvPush base msg) = []
    rw [hout]
    exact eventMsgs_nil e

/-- C11 at concrete inputs: a frame under the used id 3 for the missing handle
8 of session 42, and a push frame for the missing session 99, each leave the
gateway as it was and start no delivery. -/
theorem recv_push_leaves_gateway_witness :
    ((demoGateway.recvFrame demoExtern demoPushUsed.base demoPushUsed.msg).1 = demoGateway ∧
      (demoGateway.recvFrame demoExtern demoPushUsed.base demoPushUsed.msg).2 = []) ∧
    ((demoGateway.recvFrame demoExtern demoPushUnknown.base demoPushUnknown.msg).1 =
        demoGateway ∧
      (demoGateway.recvFrame demoExtern demoPushUnknown.base demoPushUnknown.msg).2 = []) :=
  have h := recv_push_leaves_gateway demoExtern demoGateway demoPushUsed.base demoPushUsed.msg
    (Or.inr rfl)
  have h' := recv_push_leaves_gateway demoExtern demoGateway demoPushUnknown.base
    demoPushUnknown.msg (Or.inl rfl)
  ⟨⟨h.1, (h.2.2.2 (Or.inr (Or.inl ⟨demoSession, rfl, rfl⟩))).1⟩,
    ⟨h'.1, (h'.2.2.2 (Or.inl rfl)).1⟩⟩

end Janus
